import Mathlib

/-!
Shallow embedding of the vlai-mini-ui-framework-thesis repository:
the pandas-style data model, the `DataUtils` helpers (`code/tools/data_utils.py`),
the `DataPreprocessor` methods (`code/data-analysis/preprocess.py`),
the `ThesisDataAnalyzer` methods (`code/data-analysis/main_analysis.py`),
and the Flask route handlers (`code/web-interface/server.py`).
Library calls (scipy, sklearn, statsmodels, file readers) are oracle
parameters; everything the repository itself computes is embedded directly.
-/

set_option maxHeartbeats 1600000
set_option maxRecDepth 8192

/-- Python exceptions that the embedded code can raise. -/
inductive PyErr where
  | valueError (msg : String)
  | keyError (key : String)
  | attributeError (msg : String)
  | typeError (msg : String)
deriving DecidableEq, Repr

/-- A cell of a pandas dataframe: a (rational) number, a string, NaN
(missing value), or a signed infinity (`neg = true` for negative infinity). -/
inductive Cell where
  | num (q : ℚ)
  | str (s : String)
  | nan
  | inft (neg : Bool)
deriving DecidableEq, Repr

/-- A pandas dataframe: named columns and a list of rows.  Cell `i` of a row
is the value of column `i`. -/
structure DataFrame where
  columns : List String
  rows : List (List Cell)
deriving DecidableEq, Repr

/-- `df.empty` in pandas: true when either axis has length zero. -/
def DataFrame.isEmptyDf (df : DataFrame) : Bool :=
  df.rows.isEmpty || df.columns.isEmpty

/-- Index of a column label (first occurrence), `none` when absent. -/
def DataFrame.colIdx (df : DataFrame) (c : String) : Option Nat :=
  df.columns.findIdx? (fun x => x = c)

/-- The cells of column index `i` (missing entries of ragged rows read as NaN). -/
def DataFrame.colAt (df : DataFrame) (i : Nat) : List Cell :=
  df.rows.map (fun r => r.getD i Cell.nan)

/-- `df[c]`: the column as a list of cells, `KeyError` when the label is absent. -/
def DataFrame.getCol (df : DataFrame) (c : String) : Except PyErr (List Cell) :=
  match df.colIdx c with
  | none => .error (.keyError c)
  | some i => .ok (df.colAt i)

/-- A cell counts as numeric-typed (as opposed to object dtype). -/
def Cell.isNumLike : Cell → Bool
  | .num _ => true
  | .nan => true
  | .inft _ => true
  | .str _ => false

/-- A cell is a missing value (`isnull`). -/
def Cell.isNan : Cell → Bool
  | .nan => true
  | _ => false

/-- A cell is an infinite value (`np.isinf`). -/
def Cell.isInf : Cell → Bool
  | .inft _ => true
  | _ => false

/-- A column has numeric dtype when every cell is numeric-like
(`select_dtypes(include=[np.number])`). -/
def DataFrame.isNumericColAt (df : DataFrame) (i : Nat) : Bool :=
  (df.colAt i).all Cell.isNumLike

/-- The labels of the numeric columns of `df`. -/
def DataFrame.numericCols (df : DataFrame) : List String :=
  (List.range df.columns.length).filterMap
    (fun i => if df.isNumericColAt i then some (df.columns.getD i "") else none)

/-- The labels of the object/category columns
(`select_dtypes(include=[:object, :category])`): the non-numeric ones. -/
def DataFrame.objectCols (df : DataFrame) : List String :=
  (List.range df.columns.length).filterMap
    (fun i => if df.isNumericColAt i then none else some (df.columns.getD i ""))

/-- Elementwise pandas `==` on cells: NaN compares unequal to everything
(including NaN); values of different kinds compare unequal. -/
def pyEq : Cell → Cell → Bool
  | .nan, _ => false
  | _, .nan => false
  | .num a, .num b => a = b
  | .str a, .str b => a = b
  | .inft a, .inft b => a = b
  | _, _ => false

/-- Elementwise pandas `!=` on cells: the pointwise negation of `==`,
so NaN compares not-equal to everything. -/
def pyNe (a b : Cell) : Bool := ! pyEq a b

/-- `cell < bound` for an optional numeric bound: false when the bound is NaN
(`none`) or the cell is NaN; negative infinity is below every bound. -/
def cellLtO (c : Cell) (b : Option ℚ) : Bool :=
  match b, c with
  | some q, .num v => v < q
  | some _, .inft neg => neg
  | _, _ => false

/-- `cell > bound` for an optional numeric bound (NaN-propagating, as above). -/
def cellGtO (c : Cell) (b : Option ℚ) : Bool :=
  match b, c with
  | some q, .num v => q < v
  | some _, .inft neg => !neg
  | _, _ => false

/-- The finite numeric values of a column, in order (`dropna`, infinities and
strings excluded). -/
def numsOf (cells : List Cell) : List ℚ :=
  cells.filterMap (fun c => match c with | .num q => some q | _ => none)

/-- `Series.quantile(p)` with pandas default linear interpolation:
sort the values, take position `p * (n - 1)`, interpolate between the
neighbouring order statistics.  `none` (NaN) for an empty series. -/
def quantile (xs : List ℚ) (p : ℚ) : Option ℚ :=
  match xs.insertionSort (· ≤ ·) with
  | [] => none
  | a :: rest =>
    let s := a :: rest
    let n : ℕ := s.length
    let pos : ℚ := p * ((n : ℚ) - 1)
    let lo : ℕ := pos.floor.toNat
    let frac : ℚ := pos - (lo : ℚ)
    let x0 := s.getD lo a
    let x1 := s.getD (lo + 1) x0
    some (x0 + frac * (x1 - x0))

/-- Insert-or-overwrite for a Python dict modelled as an association list:
replaces the value at an existing key (keeping its position), otherwise
appends the new binding. -/
def dictInsert {α : Type} : List (String × α) → String → α → List (String × α)
  | [], k, v => [(k, v)]
  | p :: rest, k, v =>
    if p.1 = k then (k, v) :: rest else p :: dictInsert rest k v

theorem dictInsert_overwrite {α : Type} (m : List (String × α)) (k : String)
    (v1 v2 : α) : dictInsert (dictInsert m k v1) k v2 = dictInsert m k v2 := by
  induction m with
  | nil => simp [dictInsert]
  | cons p rest ih =>
    by_cases h : p.1 = k
    · simp [dictInsert, h]
    · simp [dictInsert, h, ih]

theorem dictInsert_length_of_lookup_none {α : Type} (m : List (String × α))
    (k : String) (v : α) (h : m.lookup k = none) :
    (dictInsert m k v).length = m.length + 1 := by
  induction m with
  | nil => simp [dictInsert]
  | cons p rest ih =>
    simp only [List.lookup] at h
    by_cases hk : p.1 = k
    · simp [hk, beq_self_eq_true] at h
    · have hb : (k == p.1) = false := by
        simp [beq_eq_false_iff_ne]
        exact fun he => hk he.symm
      rw [hb] at h
      simp [dictInsert, hk, ih h]

theorem dictInsert_lookup {α : Type} (m : List (String × α)) (k : String)
    (v : α) : (dictInsert m k v).lookup k = some v := by
  induction m with
  | nil => simp [dictInsert, List.lookup]
  | cons p rest ih =>
    by_cases h : p.1 = k
    · simp only [dictInsert, if_pos h, List.lookup, beq_self_eq_true]
    · have hb : (k == p.1) = false := by
        simp only [beq_eq_false_iff_ne, ne_eq]
        exact fun he => h he.symm
      simp only [dictInsert, if_neg h, List.lookup, hb]
      exact ih

/-- Helper: a decidable filter and its negation partition a list by length. -/
theorem length_filter_add_length_filter_not {α : Type} (l : List α)
    (p : α → Bool) :
    (l.filter p).length + (l.filter (fun x => ! p x)).length = l.length := by
  induction l with
  | nil => simp
  | cons a rest ih =>
    rw [List.filter_cons, List.filter_cons]
    by_cases h : p a = true
    · rw [if_pos h, if_neg (by simp [h])]
      simp only [List.length_cons]
      omega
    · have h2 : p a = false := by simpa using h
      rw [if_neg (by simp [h2]), if_pos (by simp [h2])]
      simp only [List.length_cons]
      omega

/-- Membership in a list gives a found index. -/
theorem findIdx?_isSome_of_mem {l : List String} {c : String} (h : c ∈ l) :
    (l.findIdx? (fun x => x = c)).isSome = true := by
  rw [List.findIdx?_isSome]
  exact List.any_eq_true.mpr ⟨c, h, by simp⟩

/-- Absence from a list means no found index. -/
theorem findIdx?_eq_none_of_not_mem {l : List String} {c : String}
    (h : c ∉ l) : l.findIdx? (fun x => x = c) = none := by
  rw [List.findIdx?_eq_none_iff]
  intro x hx
  simp only [decide_eq_false_iff_not]
  intro he
  exact h (he ▸ hx)

/-! ## DataUtils (`code/tools/data_utils.py`) -/

/-- Result record of `DataUtils.validate_dataframe`. -/
structure ValidationResult where
  is_valid : Bool
  issues : List String
  warnings : List String
deriving DecidableEq, Repr

/-- Rows equal to some earlier row (`df.duplicated().sum()`); pandas treats
NaN cells as equal for duplicate detection, as structural equality does. -/
def dupCountAux : List (List Cell) → List (List Cell) → Nat
  | _, [] => 0
  | seen, r :: rest =>
    (if seen.contains r then 1 else 0) + dupCountAux (r :: seen) rest

/-- `df.duplicated().sum()`. -/
def DataFrame.dupCount (df : DataFrame) : Nat := dupCountAux [] df.rows

/-- `df.isnull().sum().sum()`: missing cells counted column by column. -/
def DataFrame.missingCount (df : DataFrame) : Nat :=
  ((List.range df.columns.length).map
    (fun i => (df.colAt i).countP Cell.isNan)).sum

/-- `np.isinf(df[numeric_cols]).sum().sum()`: infinite cells of the numeric
columns. -/
def DataFrame.infCount (df : DataFrame) : Nat :=
  ((List.range df.columns.length).map
    (fun i => if df.isNumericColAt i then (df.colAt i).countP Cell.isInf
              else 0)).sum

/-- `DataUtils.validate_dataframe` (data_utils.py lines 24-70): starts from a
valid result, marks invalid (with an issue) for an empty frame or missing
required columns, and appends warnings for duplicate rows, missing values and
infinite values.  `required_columns = none` models the `None` default; the
Python truthiness test `if required_columns:` also skips an empty list. -/
def validate_dataframe (df : DataFrame)
    (required_columns : Option (List String)) : ValidationResult :=
  let r0 : ValidationResult := ⟨true, [], []⟩
  let r1 :=
    if df.isEmptyDf then
      { r0 with is_valid := false, issues := r0.issues ++ ["Dataframe is empty"] }
    else r0
  let req := required_columns.getD []
  let missing := req.filter (fun c => ! df.columns.contains c)
  let r2 :=
    if req.isEmpty then r1
    else if missing.isEmpty then r1
    else
      { r1 with
          is_valid := false
          issues := r1.issues ++
            ["Missing required columns: " ++ String.intercalate ", " missing] }
  let d := df.dupCount
  let r3 :=
    if 0 < d then
      { r2 with warnings := r2.warnings ++ [s!"Found {d} duplicate rows"] }
    else r2
  let m := df.missingCount
  let r4 :=
    if 0 < m then
      { r3 with warnings := r3.warnings ++ [s!"Found {m} missing values"] }
    else r3
  if 0 < df.numericCols.length then
    let ic := df.infCount
    if 0 < ic then
      { r4 with warnings := r4.warnings ++ [s!"Found {ic} infinite values"] }
    else r4
  else r4

/-- `DataUtils.split_data_by_condition` (data_utils.py lines 160-177):
row-split on elementwise `==` / `!=` against the condition value, returning
copies; `KeyError` when the column is absent.  pandas `!=` is the pointwise
negation of `==`, so a NaN cell falls in the non-matching part. -/
def split_data_by_condition (df : DataFrame) (condition_col : String)
    (condition_value : Cell) : Except PyErr (DataFrame × DataFrame) :=
  match df.colIdx condition_col with
  | none => .error (.keyError condition_col)
  | some i =>
    .ok (⟨df.columns,
            df.rows.filter (fun r => pyEq (r.getD i Cell.nan) condition_value)⟩,
         ⟨df.columns,
            df.rows.filter (fun r => pyNe (r.getD i Cell.nan) condition_value)⟩)

theorem validate_dataframe_is_valid_eq (df : DataFrame)
    (rc : Option (List String)) :
    (validate_dataframe df rc).is_valid =
      (!df.isEmptyDf &&
        ((rc.getD []).filter (fun c => ! df.columns.contains c)).isEmpty) := by
  unfold validate_dataframe
  simp only [apply_ite ValidationResult.is_valid]
  split_ifs <;> simp_all

theorem validate_dataframe_issues_isEmpty (df : DataFrame)
    (rc : Option (List String)) :
    (validate_dataframe df rc).issues.isEmpty =
      (validate_dataframe df rc).is_valid := by
  unfold validate_dataframe
  simp only [apply_ite ValidationResult.is_valid,
    apply_ite ValidationResult.issues]
  split_ifs <;> simp_all

/-- C8: `DataUtils.validate_dataframe` returns `is_valid = true` exactly when
the dataframe is non-empty and every required column is present; duplicate
rows, missing values and infinite values only append warnings, so `is_valid`
is `false` exactly when the `issues` list is non-empty. -/
theorem validate_dataframe_valid_characterization (df : DataFrame)
    (required_columns : Option (List String)) :
    ((validate_dataframe df required_columns).is_valid = true ↔
      (df.isEmptyDf = false ∧
        ∀ c ∈ required_columns.getD [], df.columns.contains c = true))
    ∧ ((validate_dataframe df required_columns).is_valid = false ↔
        (validate_dataframe df required_columns).issues ≠ []) := by
  constructor
  · rw [validate_dataframe_is_valid_eq]
    simp [List.isEmpty_iff, List.filter_eq_nil_iff]
  · have h2 := validate_dataframe_issues_isEmpty df required_columns
    constructor
    · intro h
      rw [h] at h2
      intro hnil
      rw [hnil] at h2
      simp at h2
    · intro h
      cases hv : (validate_dataframe df required_columns).is_valid with
      | false => rfl
      | true =>
        rw [hv] at h2
        exact absurd (List.isEmpty_iff.mp h2) h

/-- C9: `DataUtils.split_data_by_condition` splits a dataframe with the
condition column present into two copies whose row counts sum to the row
count of the input; the input dataframe itself is not modified (the embedding
is functional and the source returns `.copy()` frames). -/
theorem split_data_by_condition_partitions (df : DataFrame)
    (condition_col : String) (condition_value : Cell)
    (h : condition_col ∈ df.columns) :
    ∃ matching non_matching,
      split_data_by_condition df condition_col condition_value =
        .ok (matching, non_matching)
      ∧ matching.rows.length + non_matching.rows.length = df.rows.length
      ∧ matching.columns = df.columns ∧ non_matching.columns = df.columns := by
  have hs := findIdx?_isSome_of_mem h
  rcases hidx : df.columns.findIdx? (fun x => x = condition_col) with _ | i
  · rw [hidx] at hs
    simp at hs
  · unfold split_data_by_condition DataFrame.colIdx
    rw [hidx]
    refine ⟨_, _, rfl, ?_, rfl, rfl⟩
    have hp := length_filter_add_length_filter_not df.rows
      (fun r => pyEq (r.getD i Cell.nan) condition_value)
    simpa [pyNe] using hp

/-- Concrete frame for the C9 witness: a NaN in the condition column lands in
the non-matching part. -/
def dfSplitW : DataFrame :=
  ⟨["g", "x"],
   [[Cell.num 1, Cell.num 10], [Cell.num 2, Cell.num 20],
    [Cell.nan, Cell.num 30]]⟩

theorem split_data_by_condition_partitions_witness :
    "g" ∈ dfSplitW.columns ∧
    (∃ matching non_matching,
      split_data_by_condition dfSplitW "g" (Cell.num 1) =
        .ok (matching, non_matching)
      ∧ matching.rows.length + non_matching.rows.length = dfSplitW.rows.length
      ∧ matching.columns = dfSplitW.columns
      ∧ non_matching.columns = dfSplitW.columns) :=
  ⟨by decide,
   split_data_by_condition_partitions dfSplitW "g" (Cell.num 1) (by decide)⟩

/-! ## DataPreprocessor (`code/data-analysis/preprocess.py`) -/

/-- The fitted-OLS summary values the repository reads off a statsmodels
result object. -/
structure RegModel where
  rsquared : ℚ
  rsquared_adj : ℚ
  fvalue : ℚ
  f_pvalue : ℚ
  params : List (String × ℚ)
  pvalues : List (String × ℚ)
deriving DecidableEq, Repr

/-- Oracle bundle for the external statistics libraries (scipy, sklearn,
statsmodels, numpy): the repository only plumbs arguments into these. -/
structure Lib where
  ttestInd : List Cell → List Cell → ℚ × ℚ
  fOneway : List (List Cell) → ℚ × ℚ
  olsFit : List Cell → List (String × List Cell) → RegModel
  zscore : List Cell → List ℚ
  labelEncode : List Cell → List Cell
  getDummies : String → List Cell → List (String × List Cell)
  log1p : ℚ → ℚ

/-- The `self.data` attribute of a `DataPreprocessor`.  The server constructs
`DataPreprocessor(sample_data_path)` (server.py line 45) although the
constructor parameter is documented as a dataframe, so `data` can hold a
plain path string (`pathStr`) besides `None` or an actual frame. -/
inductive PData where
  | noneV
  | pathStr (s : String)
  | df (d : DataFrame)
deriving DecidableEq, Repr

/-- State of a `DataPreprocessor` instance. -/
structure PreprocessorState where
  data : PData
  original_data : Option DataFrame
  scalers : List (String × Unit)
  encoders : List (String × Unit)
  imputers : List (String × Unit)
deriving DecidableEq, Repr

/-- `DataPreprocessor.__init__`. -/
def dataPreprocessorInit (data : PData) : PreprocessorState :=
  ⟨data, none, [], [], []⟩

/-- Outlier summary entry built by `DataPreprocessor.detect_outliers`. -/
structure OutlierInfo where
  method : String
  outlier_count : Nat
  outlier_percent : ℚ
  lower_bound : Option ℚ
  upper_bound : Option ℚ
deriving DecidableEq, Repr

/-- The IQR outlier bounds of `detect_outliers` (preprocess.py lines
191-195): the repository computes `Q1 - 1.5*IQR` and `Q3 + 1.5*IQR` itself
from the two library quantiles (NaN-propagating when the column is empty). -/
def iqrBounds (cells : List Cell) : Option ℚ × Option ℚ :=
  match quantile (numsOf cells) (1/4), quantile (numsOf cells) (3/4) with
  | some q1, some q3 =>
    (some (q1 - 3/2 * (q3 - q1)), some (q3 + 3/2 * (q3 - q1)))
  | _, _ => (none, none)

/-- The per-column loop body of `detect_outliers` over a real dataframe
(preprocess.py lines 186-229): columns absent from the frame are skipped;
for `iqr` the bounds are computed by the repository and the outliers counted
by a row filter; for `zscore` the library z-scores are thresholded at 3;
any other method records nothing. -/
def detectFold (lib : Lib) (d : DataFrame) (cols : List String)
    (method : String) : List (String × OutlierInfo) :=
  cols.foldl
    (fun acc col =>
      match d.colIdx col with
      | none => acc
      | some i =>
        let cells := d.colAt i
        if method = "iqr" then
          let bs := iqrBounds cells
          let cnt := d.rows.countP
            (fun r => cellLtO (r.getD i Cell.nan) bs.1 ||
                      cellGtO (r.getD i Cell.nan) bs.2)
          let pct := (cnt : ℚ) / (d.rows.length : ℚ) * 100
          dictInsert acc col ⟨"iqr", cnt, pct, bs.1, bs.2⟩
        else if method = "zscore" then
          let z := lib.zscore cells
          let cnt := z.countP (fun q => 3 < |q|)
          let pct := (cnt : ℚ) / (d.rows.length : ℚ) * 100
          dictInsert acc col ⟨"zscore", cnt, pct, none, none⟩
        else acc)
    []

/-- `DataPreprocessor.detect_outliers` (preprocess.py lines 167-230).
With `data = None` it prints and returns `None`.  With the path string the
server installs as `data`, `columns=None` raises `AttributeError` at
`self.data.select_dtypes`, and a non-empty explicit column list raises
`AttributeError` at `self.data.columns`; an empty explicit list returns an
empty dict without touching `self.data`. -/
def detect_outliers (lib : Lib) (method : String)
    (columns : Option (List String)) (st : PreprocessorState) :
    Except PyErr (Option (List (String × OutlierInfo))) :=
  match st.data with
  | .noneV => .ok none
  | .pathStr _ =>
    (match columns with
     | none => .error (.attributeError "str object has no attribute select_dtypes")
     | some [] => .ok (some [])
     | some (_ :: _) => .error (.attributeError "str object has no attribute columns"))
  | .df d =>
    let cols := match columns with
      | none => d.numericCols
      | some cs => cs
    .ok (some (detectFold lib d cols method))

/-- Clip a cell into the optional bounds (`Series.clip`); NaN stays NaN and a
NaN (`none`) bound does not clip on that side. -/
def cellClip (c : Cell) (lb ub : Option ℚ) : Cell :=
  match c with
  | .num v =>
    let v1 := match lb with | some l => max l v | none => v
    let v2 := match ub with | some u => min u v1 | none => v1
    .num v2
  | .inft neg =>
    if neg then (match lb with | some l => .num l | none => .inft true)
    else (match ub with | some u => .num u | none => .inft false)
  | c => c

/-- Replace the cell at index `i` of every row using `f` (column assignment
`self.data[col] = ...`). -/
def DataFrame.mapCol (d : DataFrame) (i : Nat) (f : Cell → Cell) : DataFrame :=
  ⟨d.columns, d.rows.map (fun r => r.set i (f (r.getD i Cell.nan)))⟩

/-- `cell >= bound` for an optional bound: false when the bound is NaN
(`none`) or the cell is NaN; positive infinity is above every bound. -/
def cellGeO (c : Cell) (b : Option ℚ) : Bool :=
  match b, c with
  | some q, .num v => q ≤ v
  | some _, .inft neg => !neg
  | _, _ => false

/-- `cell <= bound` for an optional bound (NaN-propagating, as above). -/
def cellLeO (c : Cell) (b : Option ℚ) : Bool :=
  match b, c with
  | some q, .num v => v ≤ q
  | some _, .inft neg => neg
  | _, _ => false

/-- Minimum of a numeric column (`Series.min`), skipping NaN; `none` when no
finite or infinite value is present.  Negative infinity dominates. -/
def colMinVal (cells : List Cell) : Option ℚ :=
  if cells.any (fun c => c = Cell.inft true) then none
  else (numsOf cells).foldl
    (fun acc v => match acc with
      | none => some v
      | some w => some (min w v)) none

/-- The per-column loop body of `handle_outliers` over a real dataframe
(preprocess.py lines 249-281): `cap` clips at the 1st/99th percentiles,
`remove` keeps the rows inside the repository-computed IQR bounds (a NaN
cell fails both comparisons and is dropped), `transform` applies the library
log1p when the column minimum is positive; any other method (for example the
`iqr` default the server passes) changes nothing. -/
def outlierFold (lib : Lib) (d0 : DataFrame) (cols : List String)
    (method : String) : DataFrame :=
  cols.foldl
    (fun d col =>
      match d.colIdx col with
      | none => d
      | some i =>
        if method = "cap" then
          let cells := d.colAt i
          let lb := quantile (numsOf cells) (1/100)
          let ub := quantile (numsOf cells) (99/100)
          d.mapCol i (fun c => cellClip c lb ub)
        else if method = "remove" then
          let cells := d.colAt i
          let bs := iqrBounds cells
          ⟨d.columns,
           d.rows.filter
             (fun r => cellGeO (r.getD i Cell.nan) bs.1 &&
                       cellLeO (r.getD i Cell.nan) bs.2)⟩
        else if method = "transform" then
          let cells := d.colAt i
          match colMinVal cells with
          | some m =>
            if 0 < m then
              d.mapCol i (fun c => match c with
                | .num v => .num (lib.log1p v)
                | c => c)
            else d
          | none => d
        else d)
    d0

/-- `DataPreprocessor.handle_outliers` (preprocess.py lines 232-282); the
`data = None` and path-string cases behave as in `detect_outliers`. -/
def handle_outliers (lib : Lib) (method : String)
    (columns : Option (List String)) (st : PreprocessorState) :
    Except PyErr PreprocessorState :=
  match st.data with
  | .noneV => .ok st
  | .pathStr _ =>
    (match columns with
     | none => .error (.attributeError "str object has no attribute select_dtypes")
     | some [] => .ok st
     | some (_ :: _) => .error (.attributeError "str object has no attribute columns"))
  | .df d =>
    let cols := match columns with
      | none => d.numericCols
      | some cs => cs
    .ok { st with data := .df (outlierFold lib d cols method) }

/-- Drop every column labelled `col` (pandas `drop(col, axis=1)`). -/
def DataFrame.dropCol (d : DataFrame) (col : String) : DataFrame :=
  let keep := (List.range d.columns.length).filter
    (fun i => d.columns.getD i "" ≠ col)
  ⟨keep.map (fun i => d.columns.getD i ""),
   d.rows.map (fun r => keep.map (fun i => r.getD i Cell.nan))⟩

/-- Append new columns on the right (`pd.concat([...], axis=1)` with aligned
row order). -/
def DataFrame.concatCols (d : DataFrame)
    (newCols : List (String × List Cell)) : DataFrame :=
  ⟨d.columns ++ newCols.map Prod.fst,
   d.rows.enum.map
     (fun p => p.2 ++ newCols.map (fun c => c.2.getD p.1 Cell.nan))⟩

/-- The per-column loop body of `encode_categorical_variables`
(preprocess.py lines 301-317): `label` replaces the column by the
sklearn-encoded values and records the encoder; `onehot` appends the
`get_dummies` columns and drops the original; other methods do nothing. -/
def encodeFold (lib : Lib) (d0 : DataFrame) (enc0 : List (String × Unit))
    (cols : List String) (method : String) :
    DataFrame × List (String × Unit) :=
  cols.foldl
    (fun st col =>
      let d := st.1
      match d.colIdx col with
      | none => st
      | some i =>
        if method = "label" then
          let encoded := lib.labelEncode (d.colAt i)
          (⟨d.columns, (d.rows.zip encoded).map (fun p => p.1.set i p.2)⟩,
           dictInsert st.2 col ())
        else if method = "onehot" then
          let dummies := lib.getDummies col (d.colAt i)
          ((d.concatCols dummies).dropCol col, st.2)
        else st)
    (d0, enc0)

/-- `DataPreprocessor.encode_categorical_variables` (preprocess.py lines
284-317); the `data = None` and path-string cases behave as in
`detect_outliers`. -/
def encode_categorical_variables (lib : Lib) (method : String)
    (columns : Option (List String)) (st : PreprocessorState) :
    Except PyErr PreprocessorState :=
  match st.data with
  | .noneV => .ok st
  | .pathStr _ =>
    (match columns with
     | none => .error (.attributeError "str object has no attribute select_dtypes")
     | some [] => .ok st
     | some (_ :: _) => .error (.attributeError "str object has no attribute columns"))
  | .df d =>
    let cols := match columns with
      | none => d.objectCols
      | some cs => cs
    let r := encodeFold lib d st.encoders cols method
    .ok { st with data := .df r.1, encoders := r.2 }

/-! ## ThesisDataAnalyzer (`code/data-analysis/main_analysis.py`) -/

/-- Oracles for the pandas file readers, plus whether the sample CSV the
server looks for is on disk. -/
structure FileEnv where
  readCsv : String → Except PyErr DataFrame
  readExcel : String → Except PyErr DataFrame
  readJson : String → Except PyErr DataFrame
  sampleDataExists : Bool

/-- Entries of the analyzer `self.results` dictionary that the embedded
methods write. -/
inductive AnalysisResult where
  | tTest (t p : ℚ) (significant : Bool)
  | anovaR (f p : ℚ) (significant : Bool)
  | regressionR (m : RegModel)
deriving DecidableEq, Repr

/-- State of a `ThesisDataAnalyzer` instance. -/
structure AnalyzerState where
  data : Option DataFrame
  data_path : Option String
  results : List (String × AnalysisResult)
deriving DecidableEq, Repr

/-- Python `str.endswith`, as a character-list suffix test. -/
def strEndsWith (s suffix : String) : Bool :=
  suffix.data.isSuffixOf s.data

/-- The try-block of `ThesisDataAnalyzer.load_data` (main_analysis.py lines
49-57): dispatch on the file extension, `ValueError` for any other name. -/
def load_data_attempt (env : FileEnv) (file_path : String) :
    Except PyErr DataFrame :=
  if strEndsWith file_path ".csv" then env.readCsv file_path
  else if strEndsWith file_path ".xlsx" || strEndsWith file_path ".xls" then
    env.readExcel file_path
  else if strEndsWith file_path ".json" then env.readJson file_path
  else .error (.valueError "Unsupported file format")

/-- `ThesisDataAnalyzer.load_data` (lines 42-63): the broad `except` catches
any error, prints it, and continues, leaving `self.data` unchanged. -/
def load_data (env : FileEnv) (file_path : String) (st : AnalyzerState) :
    AnalyzerState :=
  match load_data_attempt env file_path with
  | .ok d => { st with data := some d }
  | .error _ => st

/-- `ThesisDataAnalyzer.__init__` (lines 28-40). -/
def thesisDataAnalyzerInit (env : FileEnv) (data_path : Option String) :
    AnalyzerState :=
  let st : AnalyzerState := ⟨none, data_path, []⟩
  match data_path with
  | some p => load_data env p st
  | none => st

/-- `Series.unique()`: the distinct cells in first-occurrence order (NaN
appears once). -/
def uniqueCells (cells : List Cell) : List Cell := cells.eraseDups

/-- Rows of `df` whose `i`-th cell compares `==` to `v` (pandas boolean row
selection; a NaN cell never matches). -/
def DataFrame.filterByCell (df : DataFrame) (i : Nat) (v : Cell) : DataFrame :=
  ⟨df.columns, df.rows.filter (fun r => pyEq (r.getD i Cell.nan) v)⟩

/-- `ThesisDataAnalyzer.statistical_tests` (main_analysis.py lines 141-193).
The method has no exception guard, so a missing grouping or test column
raises `KeyError` to the caller.  `t_test` silently does nothing unless the
grouping column has exactly two distinct values; unknown test types do
nothing. -/
def statistical_tests (lib : Lib) (group_var test_var test_type : String)
    (st : AnalyzerState) : Except PyErr AnalyzerState :=
  match st.data with
  | none => .ok st
  | some df =>
    if test_type = "t_test" then
      match df.colIdx group_var with
      | none => .error (.keyError group_var)
      | some i =>
        let groups := uniqueCells (df.colAt i)
        if groups.length = 2 then do
          let g1 ← (df.filterByCell i (groups.getD 0 Cell.nan)).getCol test_var
          let g2 ← (df.filterByCell i (groups.getD 1 Cell.nan)).getCol test_var
          let r := lib.ttestInd g1 g2
          let entry := AnalysisResult.tTest r.1 r.2 (decide (r.2 < 1/20))
          .ok { st with results := dictInsert st.results "t_test" entry }
        else .ok st
    else if test_type = "anova" then
      match df.colIdx group_var with
      | none => .error (.keyError group_var)
      | some i =>
        let groups := uniqueCells (df.colAt i)
        do
          let gdata ← groups.mapM
            (fun g => (df.filterByCell i g).getCol test_var)
          let r := lib.fOneway gdata
          let entry := AnalysisResult.anovaR r.1 r.2 (decide (r.2 < 1/20))
          .ok { st with results := dictInsert st.results "anova" entry }
    else .ok st

/-- `ThesisDataAnalyzer.regression_analysis` (main_analysis.py lines
195-233): column selection raises `KeyError` on a missing variable; the OLS
fit is the statsmodels oracle; there is no exception guard. -/
def regression_analysis (lib : Lib) (dependent_var : String)
    (independent_vars : List String) (st : AnalyzerState) :
    Except PyErr AnalyzerState :=
  match st.data with
  | none => .ok st
  | some df => do
    let xcols ← independent_vars.mapM
      (fun c => do
        let cells ← df.getCol c
        pure (c, cells))
    let y ← df.getCol dependent_var
    let m := lib.olsFit y xcols
    let entry := AnalysisResult.regressionR m
    .ok { st with results := dictInsert st.results "regression" entry }

/-! ## JSON values and the web server (`code/web-interface/server.py`) -/

/-- JSON values as delivered by `request.json`. -/
inductive JValue where
  | jnull
  | jbool (b : Bool)
  | jnum (q : ℚ)
  | jstr (s : String)
  | jarr (items : List JValue)
  | jobj (fields : List (String × JValue))

/-- A single-quote character, for Python `repr` output. -/
def sqt : String := String.singleton (Char.ofNat 39)

mutual

/-- Python `repr` of a JSON value (string rendering approximates CPython
formatting of numbers). -/
def pyRepr : JValue → String
  | .jnull => "None"
  | .jbool b => if b then "True" else "False"
  | .jnum q => toString q
  | .jstr s => sqt ++ s ++ sqt
  | .jarr xs => "[" ++ pyReprL xs ++ "]"
  | .jobj fs => "\x7b" ++ pyReprF fs ++ "\x7d"

def pyReprL : List JValue → String
  | [] => ""
  | [x] => pyRepr x
  | x :: rest => pyRepr x ++ ", " ++ pyReprL rest

def pyReprF : List (String × JValue) → String
  | [] => ""
  | [(k, v)] => sqt ++ k ++ sqt ++ ": " ++ pyRepr v
  | (k, v) :: rest => sqt ++ k ++ sqt ++ ": " ++ pyRepr v ++ ", " ++ pyReprF rest

end

/-- Python `str()` of a JSON value: like `repr` but a top-level string stays
unquoted (as interpolated by an f-string). -/
def pyStr : JValue → String
  | .jstr s => s
  | v => pyRepr v

/-- Python truthiness of a JSON value. -/
def truthy : JValue → Bool
  | .jnull => false
  | .jbool b => b
  | .jnum q => q ≠ 0
  | .jstr s => s ≠ ""
  | .jarr xs => !xs.isEmpty
  | .jobj fs => !fs.isEmpty

/-- `data.get(key, default)`: dict lookup with a default; any non-dict value
raises `AttributeError` (no `get` attribute). -/
def jget (v : JValue) (key : String) (dflt : JValue) : Except PyErr JValue :=
  match v with
  | .jobj fs => .ok ((fs.lookup key).getD dflt)
  | _ => .error (.attributeError "object has no attribute get")

/-- `enumerate(x)` over a JSON value: lists yield their items, strings their
characters (one-character strings), dicts their keys; other values raise
`TypeError` (not iterable). -/
def pyIterItems : JValue → Except PyErr (List JValue)
  | .jarr xs => .ok xs
  | .jstr s => .ok (s.data.map (fun ch => .jstr (String.singleton ch)))
  | .jobj fs => .ok (fs.map (fun p => .jstr p.1))
  | _ => .error (.typeError "object is not iterable")

/-- Only strings have `.strip()`; other values raise `AttributeError`. -/
def asStrippable : JValue → Except PyErr String
  | .jstr s => .ok s
  | _ => .error (.attributeError "object has no attribute strip")

/-- One entry of the numbered-list comprehension: `strip` the entry (only
strings can), keep `f"{i+1}. {obj}"` when the stripped text is non-empty. -/
def numberedEntry (p : Nat × JValue) : Except PyErr (Option String) := do
  let s ← asStrippable p.2
  pure (if s.trim = "" then none
        else some (toString (p.1 + 1) ++ ". " ++ s))

/-- The comprehension
`[f"{i+1}. {obj}" for i, obj in enumerate(entries) if obj.strip()]` joined
with `chr(10)` (server.py lines 221 and 224): indices count every entry,
entries that strip to the empty string are dropped, and a non-string entry
raises `AttributeError` at its `strip` call. -/
def renderNumbered (v : JValue) : Except PyErr String := do
  let items ← pyIterItems v
  let lines ← items.enum.mapM numberedEntry
  pure (String.intercalate "\n" (lines.filterMap id))

/-- A wall-clock reading of `datetime.now()`. -/
structure Timestamp where
  year : Nat
  month : Nat
  day : Nat
  hour : Nat
  minute : Nat
  second : Nat
  micro : Nat
deriving DecidableEq, Repr

def pad2 (n : Nat) : String := if n < 10 then "0" ++ toString n else toString n

def pad4 (n : Nat) : String :=
  if n < 10 then "000" ++ toString n
  else if n < 100 then "00" ++ toString n
  else if n < 1000 then "0" ++ toString n
  else toString n

def pad6 (n : Nat) : String :=
  let s := toString n
  String.mk (List.replicate (6 - s.length) (Char.ofNat 48)) ++ s

/-- `strftime("%Y%m%d_%H%M%S")`: one-second resolution, microseconds
ignored. -/
def strfSecond (t : Timestamp) : String :=
  pad4 t.year ++ pad2 t.month ++ pad2 t.day ++ "_" ++
    pad2 t.hour ++ pad2 t.minute ++ pad2 t.second

/-- `strftime("%Y-%m-%d %H:%M:%S")` for the template footer. -/
def strfHuman (t : Timestamp) : String :=
  pad4 t.year ++ "-" ++ pad2 t.month ++ "-" ++ pad2 t.day ++ " " ++
    pad2 t.hour ++ ":" ++ pad2 t.minute ++ ":" ++ pad2 t.second

/-- `datetime.isoformat()` (microseconds omitted when zero). -/
def isoformat (t : Timestamp) : String :=
  let base := pad4 t.year ++ "-" ++ pad2 t.month ++ "-" ++ pad2 t.day ++ "T" ++
    pad2 t.hour ++ ":" ++ pad2 t.minute ++ ":" ++ pad2 t.second
  if t.micro = 0 then base else base ++ "." ++ pad6 t.micro

/-- `framework_id = f"framework_(strftime %Y%m%d_%H%M%S)"` (server.py line
69): a function of the wall clock truncated to one second. -/
def frameworkId (t : Timestamp) : String := "framework_" ++ strfSecond t

/-- The f-string template of `generate_framework_content` (server.py lines
211-274), one list entry per line, joined below with newlines; the final
empty string reproduces the trailing newline of the triple-quoted string. -/
def frameworkTemplateLines (researchArea tentativeTitle problemStatement
    objectives keyQuestions methodology timeframe resources created :
    String) : List String :=
  ["# THESIS WRITING FRAMEWORK",
   "",
   "## Research Overview",
   s!"**Field/Area**: {researchArea}",
   s!"**Tentative Title**: {tentativeTitle}",
   "",
   "## Problem Statement",
   problemStatement,
   "",
   "## Research Objectives",
   objectives,
   "",
   "## Key Research Questions",
   keyQuestions,
   "",
   "## Methodology Approach",
   methodology,
   "",
   "## Timeline & Resources",
   s!"**Timeframe**: {timeframe}",
   s!"**Required Resources**: {resources}",
   "",
   "## Integration with Thesis Project Framework:",
   "",
   "### 1. Data Analysis Pipeline",
   "- Use the Python scripts in `code/data-analysis/` for statistical analysis",
   "- Leverage `preprocess.py` for data cleaning and preparation",
   "- Utilize `main_analysis.py` for correlation, regression, and hypothesis testing",
   "",
   "### 2. Visualization Tools",
   "- Generate publication-ready plots with `code/visualization/create_plots.py`",
   "- Create interactive visualizations for presentations",
   "- Export figures in multiple formats (PNG, PDF, SVG)",
   "",
   "### 3. Documentation Structure",
   "- Update `docs/framework.md` with your research framework",
   "- Use `docs/literature-review/literature_review_template.md` for literature review",
   "- Document methodology in `docs/methodology/methodology_template.md`",
   "",
   "### 4. Project Management",
   "- Track progress using the project structure",
   "- Use `data/` directory for your datasets",
   "- Maintain version control with the provided `.gitignore`",
   "",
   "## Recommended Workflow:",
   "1. **Data Collection**: Store raw data in `data/raw/`",
   "2. **Preprocessing**: Use `code/data-analysis/preprocess.py` for data cleaning",
   "3. **Analysis**: Run statistical tests with `code/data-analysis/main_analysis.py`",
   "4. **Visualization**: Create plots with `code/visualization/create_plots.py`",
   "5. **Documentation**: Update framework and methodology documents",
   "6. **Results**: Store outputs in `results/` directory",
   "",
   "## Next Steps:",
   "1. Install Python dependencies: `pip install -r requirements.txt`",
   "2. Test the framework with sample data",
   "3. Customize scripts for your specific research needs",
   "4. Begin data collection and analysis",
   "5. Update documentation as your research evolves",
   "",
   "---",
   "*Generated by Thesis Framework Assistant*",
   "*Integrated with Python Data Analysis Framework*",
   s!"*Created: {created}*",
   ""]

/-- `generate_framework_content` (server.py lines 209-275): each `data.get`
falls back to a string default, the two numbered blocks come from
`renderNumbered`, every other placeholder is rendered with `str()` (total,
so it never raises); the only exceptions the function can raise come from
iterating `objectives` / `keyQuestions` and calling `.strip()` on their
entries (or from `.get` on a non-dict payload). -/
def generate_framework_content (now : Timestamp) (data : JValue) :
    Except PyErr String := do
  let ra ← jget data "researchArea" (.jstr "Not specified")
  let tt ← jget data "tentativeTitle" (.jstr "Not specified")
  let ps ← jget data "problemStatement" (.jstr "Not specified")
  let objV ← jget data "objectives" (.jarr [])
  let objectives ← renderNumbered objV
  let kqV ← jget data "keyQuestions" (.jarr [])
  let keyQuestions ← renderNumbered kqV
  let meth ← jget data "methodology" (.jstr "Not specified")
  let tf ← jget data "timeframe" (.jstr "Not specified")
  let res ← jget data "resources" (.jstr "Not specified")
  pure (String.intercalate "\n"
    (frameworkTemplateLines (pyStr ra) (pyStr tt) (pyStr ps) objectives
      keyQuestions (pyStr meth) (pyStr tf) (pyStr res) (strfHuman now)))

/-- One record of the in-memory `server.frameworks` dict. -/
structure Framework where
  data : JValue
  created_at : String
  title : JValue

/-- The mutable state held by the server process: the frameworks dict and
the two lazily-initialized analysis tools. -/
structure ServerState where
  frameworks : List (String × Framework)
  data_analyzer : Option AnalyzerState
  preprocessor : Option PreprocessorState

/-- The server right after `ThesisFrameworkServer.__init__`. -/
def serverInit : ServerState := ⟨[], none, none⟩

/-- An HTTP response: a file sent from a directory, or a JSON body with a
status code. -/
inductive HttpResponse where
  | file (directory fname : String)
  | json (status : Nat) (body : JValue)

def pyErrMsg : PyErr → String
  | .valueError m => m
  | .keyError k => k
  | .attributeError m => m
  | .typeError m => m

/-- The `except` branch common to the guarded routes: a 500 JSON envelope
with the exception text. -/
def err500 (e : PyErr) : HttpResponse :=
  .json 500 (.jobj [("success", .jbool false), ("error", .jstr (pyErrMsg e))])

/-- The success envelope of `save_framework`. -/
def saveOkResponse (fid : String) : HttpResponse :=
  .json 200 (.jobj [("success", .jbool true), ("framework_id", .jstr fid),
                    ("message", .jstr "Framework saved successfully")])

/-- `save_framework` route (server.py lines 64-98).  The record is stored in
`server.frameworks` before the Markdown content is generated, so a failure
inside `generate_framework_content` leaves the record stored, answers the
500 envelope, and writes no file; on success exactly one file
`frameworks/<framework_id>.md` is written (the `os.makedirs` call only
ensures the directory exists). -/
def save_framework (now : Timestamp) (body : JValue) (st : ServerState) :
    HttpResponse × ServerState × List (String × String) :=
  let fid := frameworkId now
  match jget body "tentativeTitle" (.jstr "Untitled Framework") with
  | .error e => (err500 e, st, [])
  | .ok title =>
    let fw : Framework := ⟨body, isoformat now, title⟩
    let st1 := { st with frameworks := dictInsert st.frameworks fid fw }
    match generate_framework_content now body with
    | .error e => (err500 e, st1, [])
    | .ok content =>
      (saveOkResponse fid, st1, [("frameworks/" ++ fid ++ ".md", content)])

/-- `list_frameworks` route (server.py lines 100-111). -/
def list_frameworks (st : ServerState) : HttpResponse :=
  .json 200 (.jarr (st.frameworks.map (fun p =>
    .jobj [("id", .jstr p.1), ("title", p.2.title),
           ("created_at", .jstr p.2.created_at)])))

/-- `get_framework` route (server.py lines 113-119). -/
def get_framework (framework_id : String) (st : ServerState) : HttpResponse :=
  match st.frameworks.lookup framework_id with
  | some fw =>
    .json 200 (.jobj [("data", fw.data), ("created_at", .jstr fw.created_at),
                      ("title", fw.title)])
  | none => .json 404 (.jobj [("error", .jstr "Framework not found")])

/-- The sample-data path of server.py line 42 (directory prefix elided). -/
def sampleDataPath : String := "data/sample_data.csv"

/-- `ThesisFrameworkServer.initialize_analysis_tools` (server.py lines
38-49), renamed here: when the sample CSV exists, both tools are created —
the analyzer via `ThesisDataAnalyzer(path)` (which loads the file), and the
preprocessor via `DataPreprocessor(path)`, which stores the path string
itself in `data` because the constructor parameter is a dataframe but
receives the path. -/
def setup_analysis_tools (env : FileEnv) (st : ServerState) : ServerState :=
  if env.sampleDataExists then
    { st with
        data_analyzer := some (thesisDataAnalyzerInit env (some sampleDataPath))
        preprocessor := some (dataPreprocessorInit (.pathStr sampleDataPath)) }
  else st

/-- `analyze_sample_data` route (server.py lines 121-152): lazily sets up the
tools, answers a status-200 error envelope when they are unavailable, and
otherwise evaluates `server.data_analyzer.get_summary_statistics()` first —
`ThesisDataAnalyzer` defines no such method (main_analysis.py), so the broad
guard catches the `AttributeError` and the route answers 500 without
touching the analyzer state. -/
def analyze_sample_data (env : FileEnv) (st : ServerState) :
    HttpResponse × ServerState :=
  let st1 := if st.data_analyzer.isNone then setup_analysis_tools env st else st
  match st1.data_analyzer with
  | none =>
    (.json 200 (.jobj [("success", .jbool false),
      ("error", .jstr "Data analysis tools not available")]), st1)
  | some _ =>
    (err500 (.attributeError
      "ThesisDataAnalyzer object has no attribute get_summary_statistics"),
     st1)

/-- Evaluate `preprocessing_config.get(key)` as a truthiness test. -/
def condGet (config : JValue) (key : String) : Except PyErr Bool :=
  (jget config key .jnull).map truthy

/-- Accumulated state of the sequential preprocessing blocks: the (mutated)
preprocessor, the `results` flags, and the first exception if one was
raised. -/
structure StepsOut where
  p : PreprocessorState
  results : List (String × Bool)
  err : Option PyErr

/-- One `if preprocessing_config.get(...)` block: skipped entirely once an
earlier block raised; a raising block keeps the state already accumulated. -/
def runStep (so : StepsOut) (cond : Except PyErr Bool) (flag : String)
    (f : PreprocessorState → Except PyErr PreprocessorState) : StepsOut :=
  if so.err.isSome then so
  else
    match cond with
    | .error e => ⟨so.p, so.results, some e⟩
    | .ok false => so
    | .ok true =>
      match f so.p with
      | .ok p2 => ⟨p2, dictInsert so.results flag true, none⟩
      | .error e => ⟨so.p, so.results, some e⟩

/-- Block 1 (server.py line 176): `handle_missing_values(method=method)` —
the method signature (preprocess.py line 105) has parameters `strategy` and
`columns` only, so the call itself raises `TypeError` before the method body
runs. -/
def stepHandleMissing : PreprocessorState → Except PyErr PreprocessorState :=
  fun _ => .error (.typeError
    "handle_missing_values got an unexpected keyword argument method")

/-- Block 2 (server.py lines 180-183): `handle_outliers(method=method)` with
the configured method (default the string `iqr`, which matches none of the
`cap`/`remove`/`transform` branches). -/
def stepHandleOutliers (lib : Lib) (config : JValue)
    (q : PreprocessorState) : Except PyErr PreprocessorState := do
  let m ← jget config "outlier_method" (.jstr "iqr")
  handle_outliers lib (pyStr m) none q

/-- Block 3 (server.py lines 186-189):
`encode_categorical_variables(method=method)` with default `label`. -/
def stepEncode (lib : Lib) (config : JValue) (q : PreprocessorState) :
    Except PyErr PreprocessorState := do
  let m ← jget config "encoding_method" (.jstr "label")
  encode_categorical_variables lib (pyStr m) none q

/-- Block 4 (server.py line 194): `scale_numerical_features(method=method)` —
`DataPreprocessor` defines no such attribute (its method is
`scale_features`, preprocess.py line 319), so the lookup raises
`AttributeError`. -/
def stepScale : PreprocessorState → Except PyErr PreprocessorState :=
  fun _ => .error (.attributeError
    "DataPreprocessor object has no attribute scale_numerical_features")

/-- The four sequential `if preprocessing_config.get(...)` blocks of
`preprocess_data` (server.py lines 173-195).  An exception stops the
remaining blocks but keeps the mutations already applied. -/
def preprocessSteps (lib : Lib) (config : JValue) (p0 : PreprocessorState) :
    StepsOut :=
  let s0 : StepsOut := ⟨p0, [], none⟩
  let s1 := runStep s0 (condGet config "handle_missing")
    "missing_values_handled" stepHandleMissing
  let s2 := runStep s1 (condGet config "handle_outliers") "outliers_handled"
    (stepHandleOutliers lib config)
  let s3 := runStep s2 (condGet config "encode_categorical")
    "categorical_encoded" (stepEncode lib config)
  runStep s3 (condGet config "scale_features") "features_scaled" stepScale

/-- `self.data.shape`: only an actual dataframe has `shape`. -/
def pdShape : PData → Except PyErr (Nat × Nat)
  | .df d => .ok (d.rows.length, d.columns.length)
  | .pathStr _ => .error (.attributeError "str object has no attribute shape")
  | .noneV => .error (.attributeError "NoneType object has no attribute shape")

/-- `preprocess_data` route (server.py lines 154-207): reads the `config`
object, lazily sets up the tools, runs the four blocks, and answers with the
flags and `server.preprocessor.data.shape` — which raises for the path
string the server installs as `data`, so the guard turns it into a 500. -/
def preprocess_data (env : FileEnv) (lib : Lib) (body : JValue)
    (st : ServerState) : HttpResponse × ServerState :=
  match jget body "config" (.jobj []) with
  | .error e => (err500 e, st)
  | .ok config =>
    let st1 := if st.preprocessor.isNone then setup_analysis_tools env st else st
    match st1.preprocessor with
    | none =>
      (.json 200 (.jobj [("success", .jbool false),
        ("error", .jstr "Preprocessing tools not available")]), st1)
    | some p =>
      let so := preprocessSteps lib config p
      let st2 := { st1 with preprocessor := some so.p }
      match so.err with
      | some e => (err500 e, st2)
      | none =>
        match pdShape so.p.data with
        | .error e => (err500 e, st2)
        | .ok shape =>
          (.json 200 (.jobj [("success", .jbool true),
            ("results", .jobj (so.results.map
              (fun r => (r.1, JValue.jbool r.2)))),
            ("data_shape", .jarr [.jnum (shape.1 : ℚ),
                                  .jnum (shape.2 : ℚ)])]), st2)

/-- `health_check` route (server.py lines 277-284). -/
def health_check (now : Timestamp) (st : ServerState) : HttpResponse :=
  .json 200 (.jobj [("status", .jstr "healthy"),
                    ("timestamp", .jstr (isoformat now)),
                    ("analysis_tools_available",
                     .jbool st.data_analyzer.isSome)])

/-- `index` route (server.py lines 54-57). -/
def indexRoute : HttpResponse := .file "." "index.html"

/-- `serve_js` route (server.py lines 59-62). -/
def serve_js (filename : String) : HttpResponse := .file "js" filename

/-- One incoming HTTP request, one constructor per route of server.py. -/
inductive Request where
  | indexR
  | serveJsR (filename : String)
  | saveFrameworkR (body : JValue)
  | listFrameworksR
  | getFrameworkR (framework_id : String)
  | analyzeSampleDataR
  | preprocessDataR (body : JValue)
  | healthR

/-- Dispatch a request to its handler, returning the response, the new
server state, and the files written. -/
def handleRequest (env : FileEnv) (lib : Lib) (now : Timestamp)
    (req : Request) (st : ServerState) :
    HttpResponse × ServerState × List (String × String) :=
  match req with
  | .indexR => (indexRoute, st, [])
  | .serveJsR f => (serve_js f, st, [])
  | .saveFrameworkR body => save_framework now body st
  | .listFrameworksR => (list_frameworks st, st, [])
  | .getFrameworkR fid => (get_framework fid st, st, [])
  | .analyzeSampleDataR =>
    let r := analyze_sample_data env st
    (r.1, r.2, [])
  | .preprocessDataR body =>
    let r := preprocess_data env lib body st
    (r.1, r.2, [])
  | .healthR => (health_check now st, st, [])

/-- Classification of a route by what it serves. -/
inductive RouteKind where
  | page
  | staticFiles
  | jsonApi
  | healthKind
deriving DecidableEq, Repr

/-- One `@app.route` declaration. -/
structure RouteSpec where
  path : String
  methods : List String
  kind : RouteKind
deriving DecidableEq, Repr

/-- The complete route set of server.py in declaration order: the index
page, the static-JS route, the five JSON endpoints (`save-framework`,
`frameworks`, `framework/<id>`, `analyze-sample-data`, `preprocess-data`)
and the health check. -/
def appRoutes : List RouteSpec :=
  [⟨"/", ["GET"], .page⟩,
   ⟨"/js/<path:filename>", ["GET"], .staticFiles⟩,
   ⟨"/api/save-framework", ["POST"], .jsonApi⟩,
   ⟨"/api/frameworks", ["GET"], .jsonApi⟩,
   ⟨"/api/framework/<framework_id>", ["GET"], .jsonApi⟩,
   ⟨"/api/analyze-sample-data", ["GET"], .jsonApi⟩,
   ⟨"/api/preprocess-data", ["POST"], .jsonApi⟩,
   ⟨"/api/health", ["GET"], .healthKind⟩]

/-! ## Claim theorems -/

/-- Shared helper: for a JSON-object body, `save_framework` always stores the
record (whether or not content generation succeeds) and never touches the
analysis tools. -/
theorem save_framework_state_eq (now : Timestamp)
    (fields : List (String × JValue)) (st : ServerState) :
    (save_framework now (.jobj fields) st).2.1.frameworks =
      dictInsert st.frameworks (frameworkId now)
        ⟨.jobj fields, isoformat now,
         (fields.lookup "tentativeTitle").getD (.jstr "Untitled Framework")⟩
    ∧ (save_framework now (.jobj fields) st).2.1.data_analyzer =
        st.data_analyzer
    ∧ (save_framework now (.jobj fields) st).2.1.preprocessor =
        st.preprocessor := by
  unfold save_framework
  cases hg : generate_framework_content now (.jobj fields) with
  | ok c => exact ⟨rfl, rfl, rfl⟩
  | error e => exact ⟨rfl, rfl, rfl⟩

/-- C1: for a JSON object POSTed to `/api/save-framework` whose handler body
completes without raising (the Markdown generation succeeds), the route
answers the success envelope, the in-memory dict gains exactly the one
record keyed `framework_<timestamp>`, exactly one Markdown file
`frameworks/<framework_id>.md` is written, and nothing else is persisted
(the analysis tools are untouched; with a fresh timestamp key the dict grows
by exactly one record). -/
theorem save_framework_one_record_one_file (now : Timestamp)
    (fields : List (String × JValue)) (st : ServerState) (content : String)
    (hgen : generate_framework_content now (.jobj fields) = .ok content) :
    (save_framework now (.jobj fields) st).1 =
      saveOkResponse (frameworkId now)
    ∧ (save_framework now (.jobj fields) st).2.1.frameworks =
        dictInsert st.frameworks (frameworkId now)
          ⟨.jobj fields, isoformat now,
           (fields.lookup "tentativeTitle").getD (.jstr "Untitled Framework")⟩
    ∧ (save_framework now (.jobj fields) st).2.2 =
        [("frameworks/" ++ frameworkId now ++ ".md", content)]
    ∧ (save_framework now (.jobj fields) st).2.1.data_analyzer =
        st.data_analyzer
    ∧ (save_framework now (.jobj fields) st).2.1.preprocessor =
        st.preprocessor
    ∧ (st.frameworks.lookup (frameworkId now) = none →
        (save_framework now (.jobj fields) st).2.1.frameworks.length =
          st.frameworks.length + 1) := by
  unfold save_framework
  rw [hgen]
  refine ⟨rfl, rfl, rfl, rfl, rfl, fun h => ?_⟩
  exact dictInsert_length_of_lookup_none _ _ _ h

/-- Fixed wall-clock reading used by the concrete witnesses. -/
def tW : Timestamp := ⟨2025, 1, 2, 3, 4, 5, 0⟩

/-- The Markdown content generated for the empty JSON object at `tW`. -/
def contentW : String :=
  match generate_framework_content tW (.jobj []) with
  | .ok c => c
  | .error _ => ""

theorem save_framework_one_record_one_file_witness :
    generate_framework_content tW (.jobj []) = .ok contentW
    ∧ serverInit.frameworks.lookup (frameworkId tW) = none
    ∧ (save_framework tW (.jobj []) serverInit).2.1.frameworks.length =
        serverInit.frameworks.length + 1 :=
  ⟨rfl, rfl,
   (save_framework_one_record_one_file tW [] serverInit contentW
      rfl).2.2.2.2.2 rfl⟩

/-- C10: the framework id is a function of the wall clock truncated to one
second, so two POSTs handled within the same second (equal down to the
`second` field, microseconds free) produce the identical id; the second call
overwrites the first record in `server.frameworks` (the dict afterwards is
the dict before the first call with a single binding holding the second
record) and targets the same Markdown file path, silently losing the first
record. -/
theorem save_framework_same_second_overwrites (t1 t2 : Timestamp)
    (f1 f2 : List (String × JValue)) (st : ServerState)
    (hy : t1.year = t2.year) (hmo : t1.month = t2.month)
    (hd : t1.day = t2.day) (hh : t1.hour = t2.hour)
    (hmi : t1.minute = t2.minute) (hs : t1.second = t2.second) :
    frameworkId t1 = frameworkId t2
    ∧ ((save_framework t2 (.jobj f2)
          (save_framework t1 (.jobj f1) st).2.1).2.1).frameworks =
        dictInsert st.frameworks (frameworkId t2)
          ⟨.jobj f2, isoformat t2,
           (f2.lookup "tentativeTitle").getD (.jstr "Untitled Framework")⟩ := by
  have hid : frameworkId t1 = frameworkId t2 := by
    unfold frameworkId strfSecond
    rw [hy, hmo, hd, hh, hmi, hs]
  refine ⟨hid, ?_⟩
  have h1 := (save_framework_state_eq t1 f1 st).1
  have h2 := (save_framework_state_eq t2 f2
    (save_framework t1 (.jobj f1) st).2.1).1
  rw [h2, h1, hid]
  exact dictInsert_overwrite _ _ _ _

/-- Same wall-clock second as `tW`, half a second later. -/
def tW2 : Timestamp := ⟨2025, 1, 2, 3, 4, 5, 500000⟩

theorem save_framework_same_second_overwrites_witness :
    frameworkId tW = frameworkId tW2
    ∧ ((save_framework tW2 (.jobj [("tentativeTitle", .jstr "B")])
          (save_framework tW (.jobj [("tentativeTitle", .jstr "A")])
            serverInit).2.1).2.1).frameworks =
        dictInsert serverInit.frameworks (frameworkId tW2)
          ⟨.jobj [("tentativeTitle", .jstr "B")], isoformat tW2,
           ([("tentativeTitle", JValue.jstr "B")].lookup
              "tentativeTitle").getD (.jstr "Untitled Framework")⟩ :=
  save_framework_same_second_overwrites tW tW2
    [("tentativeTitle", .jstr "A")] [("tentativeTitle", .jstr "B")]
    serverInit rfl rfl rfl rfl rfl rfl

/-- C5 counterexample: the JSON object whose `objectives` list holds the
number 1 makes `generate_framework_content` raise `AttributeError` at the
`strip` call, so `save_framework` answers the 500 error envelope instead of
succeeding — the handler does not succeed for every JSON object. -/
theorem save_framework_nonstring_objectives_cx :
    (save_framework tW (.jobj [("objectives", .jarr [.jnum 1])])
        serverInit).1 =
      err500 (.attributeError "object has no attribute strip")
    ∧ (save_framework tW (.jobj [("objectives", .jarr [.jnum 1])])
        serverInit).2.2 = [] :=
  ⟨rfl, rfl⟩

/-- Iterating this JSON value yields only strings, so every `.strip()` call
inside the numbered-list comprehension succeeds: a list of strings, a string
(iterates over its characters) or a dict (iterates over its keys). -/
def strEntriesOk : JValue → Bool
  | .jarr xs => xs.all (fun x => match x with | .jstr _ => true | _ => false)
  | .jstr _ => true
  | .jobj _ => true
  | _ => false

/-- Helper: a `mapM` over `Except` succeeds when every element maps
successfully. -/
theorem mapM_except_ok {α β γ : Type} (f : α → Except γ β) (l : List α)
    (h : ∀ x ∈ l, ∃ y, f x = .ok y) : ∃ ys, l.mapM f = .ok ys := by
  induction l with
  | nil => exact ⟨[], rfl⟩
  | cons a rest ih =>
    obtain ⟨y, hy⟩ := h a (List.mem_cons_self a rest)
    obtain ⟨ys, hys⟩ := ih (fun x hx => h x (List.mem_cons_of_mem a hx))
    refine ⟨y :: ys, ?_⟩
    rw [List.mapM_cons, hy, hys]
    rfl

/-- Helper: the numbered-list comprehension succeeds whenever iterating the
value yields only strings. -/
theorem renderNumbered_ok_of_strEntries (v : JValue)
    (h : strEntriesOk v = true) : ∃ s, renderNumbered v = .ok s := by
  have hitems : ∃ items, pyIterItems v = .ok items ∧
      ∀ x ∈ items, ∃ t, x = JValue.jstr t := by
    cases v with
    | jarr xs =>
      refine ⟨xs, rfl, ?_⟩
      intro x hx
      have hx2 := List.all_eq_true.mp h x hx
      cases x <;> simp_all
    | jstr s =>
      refine ⟨_, rfl, ?_⟩
      intro x hx
      simp only [List.mem_map] at hx
      obtain ⟨c, _, hc⟩ := hx
      exact ⟨_, hc.symm⟩
    | jobj fs =>
      refine ⟨_, rfl, ?_⟩
      intro x hx
      simp only [List.mem_map] at hx
      obtain ⟨c, _, hc⟩ := hx
      exact ⟨_, hc.symm⟩
    | jnull => simp [strEntriesOk] at h
    | jbool b => simp [strEntriesOk] at h
    | jnum q => simp [strEntriesOk] at h
  obtain ⟨items, hit, hall⟩ := hitems
  unfold renderNumbered
  rw [hit]
  have hmap := mapM_except_ok numberedEntry items.enum
    (by
      intro p hp
      have hmem : p.2 ∈ items :=
        List.getElem?_mem (List.mem_enum_iff_getElem?.mp hp)
      obtain ⟨t, ht⟩ := hall p.2 hmem
      refine ⟨if t.trim = "" then none
              else some (toString (p.1 + 1) ++ ". " ++ t), ?_⟩
      unfold numberedEntry
      rw [ht]
      rfl)
  obtain ⟨ys, hys⟩ := hmap
  refine ⟨"\n".intercalate (List.filterMap id ys), ?_⟩
  show (mapM numberedEntry items.enum >>= fun lines =>
      pure ("\n".intercalate (List.filterMap id lines)) :
      Except PyErr String) = _
  rw [hys]
  rfl

/-- The Markdown content produced on the success path, as a function of the
payload and the two rendered numbered blocks (proof abbreviation). -/
def contentFor (now : Timestamp) (fields : List (String × JValue))
    (so sk : String) : String :=
  String.intercalate "\n" (frameworkTemplateLines
    (pyStr ((fields.lookup "researchArea").getD (.jstr "Not specified")))
    (pyStr ((fields.lookup "tentativeTitle").getD (.jstr "Not specified")))
    (pyStr ((fields.lookup "problemStatement").getD (.jstr "Not specified")))
    so sk
    (pyStr ((fields.lookup "methodology").getD (.jstr "Not specified")))
    (pyStr ((fields.lookup "timeframe").getD (.jstr "Not specified")))
    (pyStr ((fields.lookup "resources").getD (.jstr "Not specified")))
    (strfHuman now))

/-- C5 amended: the routes pass unstructured JSON through with no schema
validation, but `/api/save-framework` does not succeed for every JSON
object: it succeeds (success envelope plus one Markdown file) exactly when
iterating `objectives` and `keyQuestions` yields only strings — a
non-string entry raises `AttributeError` inside
`generate_framework_content` and the handler answers the 500 error
envelope. -/
theorem save_framework_succeeds_on_string_entries (now : Timestamp)
    (fields : List (String × JValue)) (st : ServerState)
    (hobj : strEntriesOk ((fields.lookup "objectives").getD (.jarr [])) =
      true)
    (hkq : strEntriesOk ((fields.lookup "keyQuestions").getD (.jarr [])) =
      true) :
    ∃ content,
      generate_framework_content now (.jobj fields) = .ok content
      ∧ (save_framework now (.jobj fields) st).1 =
          saveOkResponse (frameworkId now)
      ∧ (save_framework now (.jobj fields) st).2.2 =
          [("frameworks/" ++ frameworkId now ++ ".md", content)] := by
  obtain ⟨so, hso⟩ := renderNumbered_ok_of_strEntries _ hobj
  obtain ⟨sk, hsk⟩ := renderNumbered_ok_of_strEntries _ hkq
  have hgen : generate_framework_content now (.jobj fields) =
      .ok (contentFor now fields so sk) := by
    show (renderNumbered ((fields.lookup "objectives").getD (.jarr [])) >>=
        fun objectives =>
          renderNumbered ((fields.lookup "keyQuestions").getD (.jarr [])) >>=
            fun keyQuestions =>
              (pure (contentFor now fields objectives keyQuestions) :
                Except PyErr String)) = _
    rw [hso]
    show (renderNumbered ((fields.lookup "keyQuestions").getD (.jarr [])) >>=
        fun keyQuestions =>
          (pure (contentFor now fields so keyQuestions) :
            Except PyErr String)) = _
    rw [hsk]
    rfl
  refine ⟨contentFor now fields so sk, hgen, ?_, ?_⟩
  · unfold save_framework
    rw [hgen]
    rfl
  · unfold save_framework
    rw [hgen]
    rfl

theorem save_framework_succeeds_on_string_entries_witness :
    strEntriesOk
      (([("objectives",
            JValue.jarr [JValue.jstr "A", JValue.jstr " "])].lookup
          "objectives").getD (.jarr [])) = true
    ∧ strEntriesOk
        (([("objectives",
              JValue.jarr [JValue.jstr "A", JValue.jstr " "])].lookup
            "keyQuestions").getD (.jarr [])) = true
    ∧ ∃ content,
        generate_framework_content tW
          (.jobj [("objectives",
            JValue.jarr [JValue.jstr "A", JValue.jstr " "])]) = .ok content
        ∧ (save_framework tW
            (.jobj [("objectives",
              JValue.jarr [JValue.jstr "A", JValue.jstr " "])])
            serverInit).1 = saveOkResponse (frameworkId tW)
        ∧ (save_framework tW
            (.jobj [("objectives",
              JValue.jarr [JValue.jstr "A", JValue.jstr " "])])
            serverInit).2.2 =
          [("frameworks/" ++ frameworkId tW ++ ".md", content)] :=
  ⟨rfl, rfl,
   save_framework_succeeds_on_string_entries tW
     [("objectives", JValue.jarr [JValue.jstr "A", JValue.jstr " "])]
     serverInit rfl rfl⟩

/-- C7: for any file path not ending in `.csv`, `.xlsx`, `.xls` or `.json`,
the try-block of `ThesisDataAnalyzer.load_data` raises
`ValueError("Unsupported file format")`, the broad guard catches it and only
prints, no exception propagates (`load_data` is total in the embedding), and
the analyzer state — in particular `self.data` — is unchanged. -/
theorem load_data_unsupported_format (env : FileEnv) (file_path : String)
    (st : AnalyzerState)
    (h1 : strEndsWith file_path ".csv" = false)
    (h2 : strEndsWith file_path ".xlsx" = false)
    (h3 : strEndsWith file_path ".xls" = false)
    (h4 : strEndsWith file_path ".json" = false) :
    load_data_attempt env file_path =
      .error (.valueError "Unsupported file format")
    ∧ load_data env file_path st = st := by
  have ha : load_data_attempt env file_path =
      .error (.valueError "Unsupported file format") := by
    unfold load_data_attempt
    simp [h1, h2, h3, h4]
  refine ⟨ha, ?_⟩
  unfold load_data
  rw [ha]

/-- Trivial analyzer state for witnesses. -/
def stA : AnalyzerState := ⟨none, none, []⟩

/-- Sample dataframe used by the concrete witnesses. -/
def dfSample : DataFrame := ⟨["age"], [[Cell.num 30], [Cell.num 40]]⟩

/-- Concrete file oracles: every read yields `dfSample`; the sample CSV
exists. -/
def envW : FileEnv :=
  ⟨fun _ => .ok dfSample, fun _ => .ok dfSample, fun _ => .ok dfSample, true⟩

theorem load_data_unsupported_format_witness :
    (strEndsWith "notes.txt" ".csv" = false
      ∧ strEndsWith "notes.txt" ".xlsx" = false
      ∧ strEndsWith "notes.txt" ".xls" = false
      ∧ strEndsWith "notes.txt" ".json" = false)
    ∧ load_data_attempt envW "notes.txt" =
        .error (.valueError "Unsupported file format")
    ∧ load_data envW "notes.txt" stA = stA :=
  ⟨⟨by decide, by decide, by decide, by decide⟩,
   load_data_unsupported_format envW "notes.txt" stA (by decide) (by decide)
     (by decide) (by decide)⟩

/-- Dummy library oracles for concrete counterexamples. -/
def lib0 : Lib :=
  ⟨fun _ _ => (0, 0), fun _ => (0, 0), fun _ _ => ⟨0, 0, 0, 0, [], []⟩,
   fun _ => [], fun c => c, fun _ _ => [], fun q => q⟩

/-- Analyzer with data loaded, for the C2 counterexample. -/
def stA2 : AnalyzerState := ⟨some dfSample, none, []⟩

/-- C2 counterexample: `statistical_tests` has no exception guard — asked to
run a t-test grouped by a column absent from the data, it raises `KeyError`
to its caller instead of printing the error and continuing, so not every
operation is wrapped in a broad guard. -/
theorem statistical_tests_propagates_keyerror_cx :
    statistical_tests lib0 "missing" "age" "t_test" stA2 =
      .error (.keyError "missing") := rfl

/-- C2 amended: the guarded operations do follow the print-and-continue
pattern — `load_data` never propagates (it either installs the loaded frame
or leaves the state unchanged) — but the analyzer methods
`statistical_tests` and `regression_analysis` have no guard at all and
propagate a `KeyError` to their caller whenever the named column is missing
from the loaded data. -/
theorem exception_guard_split (env : FileEnv) (file_path : String)
    (st : AnalyzerState) (lib : Lib) (df : DataFrame) (g x : String)
    (st2 : AnalyzerState) (hdf : st2.data = some df)
    (hg : g ∉ df.columns) :
    ((∃ d, load_data env file_path st = { st with data := some d })
      ∨ load_data env file_path st = st)
    ∧ statistical_tests lib g x "t_test" st2 = .error (.keyError g)
    ∧ regression_analysis lib g [] st2 = .error (.keyError g) := by
  have hidx : df.colIdx g = none :=
    findIdx?_eq_none_of_not_mem hg
  refine ⟨?_, ?_, ?_⟩
  · unfold load_data
    cases load_data_attempt env file_path with
    | ok d => exact Or.inl ⟨d, rfl⟩
    | error e => exact Or.inr rfl
  · unfold statistical_tests
    rw [hdf]
    show (if "t_test" = "t_test" then _ else _) = _
    rw [if_pos rfl]
    rw [hidx]
  · unfold regression_analysis
    rw [hdf]
    show (df.getCol g >>= fun y => _) = _
    unfold DataFrame.getCol
    rw [hidx]
    rfl

theorem exception_guard_split_witness :
    (stA2.data = some dfSample ∧ "missing" ∉ dfSample.columns)
    ∧ (((∃ d, load_data envW "a.csv" stA = { stA with data := some d })
        ∨ load_data envW "a.csv" stA = stA)
      ∧ statistical_tests lib0 "missing" "age" "t_test" stA2 =
          .error (.keyError "missing")
      ∧ regression_analysis lib0 "missing" [] stA2 =
          .error (.keyError "missing")) :=
  ⟨⟨rfl, by decide⟩,
   exception_guard_split envW "a.csv" stA lib0 dfSample "missing" "age"
     stA2 rfl (by decide)⟩

/-- C4 counterexample: the route set contains five JSON POST/GET endpoints
(`save-framework`, `frameworks`, `framework/<id>`, `analyze-sample-data`,
`preprocess-data`), not four as the spec counts. -/
theorem json_endpoint_count_cx :
    (appRoutes.filter (fun r => r.kind = RouteKind.jsonApi)).length = 5
    ∧ ((appRoutes.filter (fun r => r.kind = RouteKind.jsonApi)).length = 4 →
        False) := by
  refine ⟨rfl, ?_⟩
  intro h
  have h5 : (appRoutes.filter
      (fun r => r.kind = RouteKind.jsonApi)).length = 5 := rfl
  rw [h5] at h
  exact absurd h (by decide)

/-- C4 amended: the web server route set consists of exactly an index page,
a static-JS route, five JSON POST/GET endpoints, and one health-check
endpoint — eight routes in all. -/
theorem route_set_composition :
    appRoutes.length = 8
    ∧ (appRoutes.filter (fun r => r.kind = RouteKind.page)).length = 1
    ∧ (appRoutes.filter
        (fun r => r.kind = RouteKind.staticFiles)).length = 1
    ∧ (appRoutes.filter (fun r => r.kind = RouteKind.jsonApi)).length = 5
    ∧ (appRoutes.filter
        (fun r => r.kind = RouteKind.healthKind)).length = 1 :=
  ⟨rfl, rfl, rfl, rfl, rfl⟩

/-- Concrete numeric frame with one IQR outlier. -/
def dfOut : DataFrame :=
  ⟨["x"],
   [[Cell.num 1], [Cell.num 2], [Cell.num 3], [Cell.num 4], [Cell.num 100]]⟩

/-- Preprocessor holding `dfOut` as a real dataframe. -/
def pOut : PreprocessorState := dataPreprocessorInit (.df dfOut)

deriving instance DecidableEq for Except

/-- C6 counterexample: on the column 1,2,3,4,100 the library quantile calls
return 2 and 4, yet `detect_outliers` reports the bounds -1 and 7 — values
computed by the repository's own arithmetic (`Q1 - 1.5*IQR`,
`Q3 + 1.5*IQR`, preprocess.py lines 193-195) and produced by no single
library call, refuting the claim that no method computes an analytical
result such as outlier bounds by its own arithmetic. -/
theorem detect_outliers_own_arithmetic_cx :
    detect_outliers lib0 "iqr" none pOut =
      .ok (some [("x", ⟨"iqr", 1, 20, some (-1), some 7⟩)])
    ∧ quantile (numsOf (dfOut.colAt 0)) (1/4) = some 2
    ∧ quantile (numsOf (dfOut.colAt 0)) (3/4) = some 4
    ∧ ((-1 : ℚ) = 2 → False) ∧ ((-1 : ℚ) = 4 → False)
    ∧ ((7 : ℚ) = 2 → False) ∧ ((7 : ℚ) = 4 → False) := by
  have hq1 : quantile (numsOf (dfOut.colAt 0)) (1/4) = some 2 := by
    norm_num [quantile, numsOf, dfOut, DataFrame.colAt, List.insertionSort,
      List.orderedInsert, Rat.floor, show Int.toNat 1 = 1 from rfl]
  have hq3 : quantile (numsOf (dfOut.colAt 0)) (3/4) = some 4 := by
    norm_num [quantile, numsOf, dfOut, DataFrame.colAt, List.insertionSort,
      List.orderedInsert, Rat.floor, show Int.toNat 3 = 3 from rfl]
  have hb : iqrBounds (dfOut.colAt 0) = (some (-1), some 7) := by
    unfold iqrBounds
    rw [hq1, hq3]
    norm_num
  have hcnt : dfOut.rows.countP
      (fun r => cellLtO (r.getD 0 Cell.nan) (some (-1)) ||
                cellGtO (r.getD 0 Cell.nan) (some 7)) = 1 := by decide
  have hfold : detectFold lib0 dfOut ["x"] "iqr" =
      [("x", ⟨"iqr", 1, 20, some (-1), some 7⟩)] := by
    unfold detectFold
    simp only [List.foldl_cons, List.foldl_nil,
      show dfOut.colIdx "x" = some 0 from rfl, if_true]
    simp only [hb, hcnt]
    norm_num [dictInsert, OutlierInfo.mk.injEq, dfOut]
  have hd : detect_outliers lib0 "iqr" none pOut =
      .ok (some [("x", ⟨"iqr", 1, 20, some (-1), some 7⟩)]) := by
    show Except.ok (some (detectFold lib0 dfOut dfOut.numericCols "iqr")) = _
    rw [show dfOut.numericCols = ["x"] from rfl, hfold]
  exact ⟨hd, hq1, hq3, by decide, by decide, by decide, by decide⟩

/-- Helper: for a column without infinities, the row count of the IQR
outlier filter equals the count over the finite numeric values. -/
theorem countRows_eq_countNums (rows : List (List Cell)) (i : Nat)
    (lb ub : ℚ)
    (hno : (rows.map (fun r => r.getD i Cell.nan)).all
      (fun c => !c.isInf) = true) :
    rows.countP (fun r => cellLtO (r.getD i Cell.nan) (some lb) ||
                          cellGtO (r.getD i Cell.nan) (some ub)) =
      (numsOf (rows.map (fun r => r.getD i Cell.nan))).countP
        (fun v => decide (v < lb) || decide (ub < v)) := by
  induction rows with
  | nil => rfl
  | cons r rest ih =>
    simp only [List.map_cons, List.all_cons, Bool.and_eq_true] at hno
    obtain ⟨h1, h2⟩ := hno
    have ihr := ih h2
    rw [List.countP_cons, List.map_cons]
    cases hc : r.getD i Cell.nan with
    | num v =>
      have hnums : numsOf (Cell.num v ::
          List.map (fun r => r.getD i Cell.nan) rest) =
          v :: numsOf (List.map (fun r => r.getD i Cell.nan) rest) := rfl
      rw [hnums, List.countP_cons, ihr]
      rfl
    | str s =>
      have hnums : numsOf (Cell.str s ::
          List.map (fun r => r.getD i Cell.nan) rest) =
          numsOf (List.map (fun r => r.getD i Cell.nan) rest) := rfl
      rw [hnums, ihr]
      rfl
    | nan =>
      have hnums : numsOf (Cell.nan ::
          List.map (fun r => r.getD i Cell.nan) rest) =
          numsOf (List.map (fun r => r.getD i Cell.nan) rest) := rfl
      rw [hnums, ihr]
      rfl
    | inft b =>
      rw [hc] at h1
      simp [Cell.isInf] at h1

/-- C6 amended: most engine methods only plumb arguments into external
libraries, but `detect_outliers` (and `handle_outliers`) compute the outlier
bounds by the repository's own arithmetic: for any dataframe column, the
reported bounds are exactly `Q1 - 1.5*(Q3 - Q1)` and `Q3 + 1.5*(Q3 - Q1)`
formed from the two library quantiles, and the outlier count is exactly the
number of finite column values outside those bounds. -/
theorem detect_outliers_iqr_formula (lib : Lib) (df : DataFrame)
    (col : String) (i : Nat) (q1 q3 : ℚ)
    (hi : df.colIdx col = some i)
    (hq1 : quantile (numsOf (df.colAt i)) (1/4) = some q1)
    (hq3 : quantile (numsOf (df.colAt i)) (3/4) = some q3)
    (hno : (df.colAt i).all (fun c => !c.isInf) = true) :
    detect_outliers lib "iqr" (some [col])
        (dataPreprocessorInit (.df df)) =
      .ok (some [(col,
        ⟨"iqr",
         (numsOf (df.colAt i)).countP
           (fun v => decide (v < q1 - 3/2 * (q3 - q1)) ||
                     decide (q3 + 3/2 * (q3 - q1) < v)),
         ((numsOf (df.colAt i)).countP
           (fun v => decide (v < q1 - 3/2 * (q3 - q1)) ||
                     decide (q3 + 3/2 * (q3 - q1) < v)) : ℚ) /
           (df.rows.length : ℚ) * 100,
         some (q1 - 3/2 * (q3 - q1)),
         some (q3 + 3/2 * (q3 - q1))⟩)]) := by
  have hb : iqrBounds (df.colAt i) =
      (some (q1 - 3/2 * (q3 - q1)), some (q3 + 3/2 * (q3 - q1))) := by
    unfold iqrBounds
    rw [hq1, hq3]
  have hcnt := countRows_eq_countNums df.rows i
    (q1 - 3/2 * (q3 - q1)) (q3 + 3/2 * (q3 - q1)) hno
  show Except.ok (some (detectFold lib df [col] "iqr")) = _
  unfold detectFold
  simp only [List.foldl_cons, List.foldl_nil, hi, if_true]
  simp only [hb]
  rw [hcnt]
  rfl

theorem detect_outliers_iqr_formula_witness :
    (dfOut.colIdx "x" = some 0
      ∧ quantile (numsOf (dfOut.colAt 0)) (1/4) = some 2
      ∧ quantile (numsOf (dfOut.colAt 0)) (3/4) = some 4
      ∧ (dfOut.colAt 0).all (fun c => !c.isInf) = true)
    ∧ detect_outliers lib0 "iqr" (some ["x"])
        (dataPreprocessorInit (.df dfOut)) =
      .ok (some [("x",
        ⟨"iqr",
         (numsOf (dfOut.colAt 0)).countP
           (fun v => decide (v < 2 - 3/2 * (4 - 2)) ||
                     decide (4 + 3/2 * (4 - 2) < v)),
         ((numsOf (dfOut.colAt 0)).countP
           (fun v => decide (v < 2 - 3/2 * (4 - 2)) ||
                     decide (4 + 3/2 * (4 - 2) < v)) : ℚ) /
           (dfOut.rows.length : ℚ) * 100,
         some (2 - 3/2 * (4 - 2)),
         some (4 + 3/2 * (4 - 2))⟩)]) :=
  ⟨⟨rfl,
    by
      norm_num [quantile, numsOf, dfOut, DataFrame.colAt,
        List.insertionSort, List.orderedInsert, Rat.floor,
        show Int.toNat 1 = 1 from rfl],
    by
      norm_num [quantile, numsOf, dfOut, DataFrame.colAt,
        List.insertionSort, List.orderedInsert, Rat.floor,
        show Int.toNat 3 = 3 from rfl],
    by decide⟩,
   detect_outliers_iqr_formula lib0 dfOut "x" 0 2 4 rfl
     (by
       norm_num [quantile, numsOf, dfOut, DataFrame.colAt,
         List.insertionSort, List.orderedInsert, Rat.floor,
         show Int.toNat 1 = 1 from rfl])
     (by
       norm_num [quantile, numsOf, dfOut, DataFrame.colAt,
         List.insertionSort, List.orderedInsert, Rat.floor,
         show Int.toNat 3 = 3 from rfl])
     (by decide)⟩

/-- Helper: a step whose body raises keeps the preprocessor unchanged. -/
theorem runStep_keeps_p (so : StepsOut) (cond : Except PyErr Bool)
    (flag : String) (f : PreprocessorState → Except PyErr PreprocessorState)
    (hf : ∃ er, f so.p = .error er) :
    (runStep so cond flag f).p = so.p := by
  obtain ⟨er, her⟩ := hf
  unfold runStep
  by_cases he : so.err.isSome = true
  · rw [if_pos he]
  · rw [if_neg he]
    cases cond with
    | error e => rfl
    | ok b =>
      cases b with
      | false => rfl
      | true => rw [her]

/-- Helper: with the path string the server installs as `data`,
`handle_outliers` raises at `select_dtypes` before any mutation. -/
theorem handle_outliers_pathStr_err (lib : Lib) (m : String)
    (p : PreprocessorState) (s : String) (hps : p.data = .pathStr s) :
    handle_outliers lib m none p =
      .error (.attributeError
        "str object has no attribute select_dtypes") := by
  unfold handle_outliers
  rw [hps]

/-- Helper: same for `encode_categorical_variables`. -/
theorem encode_categorical_pathStr_err (lib : Lib) (m : String)
    (p : PreprocessorState) (s : String) (hps : p.data = .pathStr s) :
    encode_categorical_variables lib m none p =
      .error (.attributeError
        "str object has no attribute select_dtypes") := by
  unfold encode_categorical_variables
  rw [hps]

/-- Helper: with the path string as `data`, every block of `preprocess_data`
raises before mutating, so the preprocessor object is unchanged. -/
theorem preprocessSteps_pathStr (lib : Lib) (config : JValue)
    (p : PreprocessorState) (s : String) (hps : p.data = .pathStr s) :
    (preprocessSteps lib config p).p = p := by
  have herr2 : ∀ q : PreprocessorState, q.data = .pathStr s →
      ∃ er, stepHandleOutliers lib config q = .error er := by
    intro q hq
    unfold stepHandleOutliers
    cases hj : jget config "outlier_method" (.jstr "iqr") with
    | error e => exact ⟨e, rfl⟩
    | ok m =>
      exact ⟨.attributeError "str object has no attribute select_dtypes",
        handle_outliers_pathStr_err lib (pyStr m) q s hq⟩
  have herr3 : ∀ q : PreprocessorState, q.data = .pathStr s →
      ∃ er, stepEncode lib config q = .error er := by
    intro q hq
    unfold stepEncode
    cases hj : jget config "encoding_method" (.jstr "label") with
    | error e => exact ⟨e, rfl⟩
    | ok m =>
      exact ⟨.attributeError "str object has no attribute select_dtypes",
        encode_categorical_pathStr_err lib (pyStr m) q s hq⟩
  have step : ∀ (so : StepsOut) (cond : Except PyErr Bool) (flag : String)
      (f : PreprocessorState → Except PyErr PreprocessorState),
      so.p.data = .pathStr s →
      (∀ q : PreprocessorState, q.data = .pathStr s →
        ∃ er, f q = .error er) →
      (runStep so cond flag f).p = so.p ∧
        (runStep so cond flag f).p.data = .pathStr s := by
    intro so cond flag f hp hf
    have h := runStep_keeps_p so cond flag f (hf so.p hp)
    exact ⟨h, by rw [h]; exact hp⟩
  have r1 := step ⟨p, [], none⟩ (condGet config "handle_missing")
    "missing_values_handled" stepHandleMissing hps
    (fun q _ => ⟨_, rfl⟩)
  have r2 := step _ (condGet config "handle_outliers") "outliers_handled"
    (stepHandleOutliers lib config) r1.2 herr2
  have r3 := step _ (condGet config "encode_categorical")
    "categorical_encoded" (stepEncode lib config) r2.2 herr3
  have r4 := step _ (condGet config "scale_features") "features_scaled"
    stepScale r3.2 (fun q _ => ⟨_, rfl⟩)
  show (runStep (runStep (runStep (runStep ⟨p, [], none⟩
      (condGet config "handle_missing") "missing_values_handled"
      stepHandleMissing)
      (condGet config "handle_outliers") "outliers_handled"
      (stepHandleOutliers lib config))
      (condGet config "encode_categorical") "categorical_encoded"
      (stepEncode lib config))
      (condGet config "scale_features") "features_scaled" stepScale).p = p
  rw [r4.1, r3.1, r2.1, r1.1]

/-- Helper: `save_framework` never touches the analysis tools, for any
request body. -/
theorem save_framework_preserves_tools (now : Timestamp) (body : JValue)
    (st : ServerState) :
    (save_framework now body st).2.1.data_analyzer = st.data_analyzer
    ∧ (save_framework now body st).2.1.preprocessor = st.preprocessor := by
  unfold save_framework
  cases hj : jget body "tentativeTitle" (.jstr "Untitled Framework") with
  | error e => exact ⟨rfl, rfl⟩
  | ok title =>
    cases hg : generate_framework_content now body with
    | ok c => exact ⟨rfl, rfl⟩
    | error e => exact ⟨rfl, rfl⟩

/-- Helper: with the server-installed path string as preprocessor data, a
`preprocess-data` request leaves the whole server state unchanged (every
block raises before mutating and the final `shape` read raises too). -/
theorem preprocess_data_pathStr_state (env : FileEnv) (lib : Lib)
    (body : JValue) (fw : List (String × Framework)) (a : AnalyzerState)
    (p : PreprocessorState) (s : String) (hps : p.data = .pathStr s) :
    (preprocess_data env lib body ⟨fw, some a, some p⟩).2 =
      ⟨fw, some a, some p⟩ := by
  unfold preprocess_data
  cases hc : jget body "config" (.jobj []) with
  | error e => rfl
  | ok config =>
    have hkeep := preprocessSteps_pathStr lib config p s hps
    simp only [Option.isNone_some, Bool.false_eq_true, if_false, hkeep]
    split
    · rfl
    · split <;> rfl

/-- C3 counterexample: the first `/api/analyze-sample-data` request (with
the sample CSV present) initializes the analysis tools, so it modifies
server-held mutable state other than the frameworks dict: `data_analyzer`
flips from `None` to an initialized analyzer while `frameworks` is
untouched. -/
theorem analyze_request_modifies_tools_cx :
    (handleRequest envW lib0 tW Request.analyzeSampleDataR
        serverInit).2.1.data_analyzer.isSome = true
    ∧ serverInit.data_analyzer.isSome = false
    ∧ (handleRequest envW lib0 tW Request.analyzeSampleDataR
        serverInit).2.1.frameworks = serverInit.frameworks :=
  ⟨by decide, rfl, rfl⟩

/-- C3 amended: besides the frameworks dict, a request may perform the
one-time lazy initialization of `data_analyzer` and `preprocessor`; once
both tools are initialized (the preprocessor holding the path string the
server constructor call gives it), every request leaves both fields — and
hence the dataframes they hold — unchanged: only `server.frameworks` is
ever modified. -/
theorem requests_preserve_initialized_tools (env : FileEnv) (lib : Lib)
    (now : Timestamp) (req : Request) (st : ServerState)
    (a : AnalyzerState) (p : PreprocessorState) (s : String)
    (ha : st.data_analyzer = some a) (hp : st.preprocessor = some p)
    (hps : p.data = .pathStr s) :
    (handleRequest env lib now req st).2.1.data_analyzer = some a
    ∧ (handleRequest env lib now req st).2.1.preprocessor = some p := by
  obtain ⟨fw, da, pp⟩ := st
  change da = some a at ha
  change pp = some p at hp
  subst ha
  subst hp
  cases req with
  | indexR => exact ⟨rfl, rfl⟩
  | serveJsR f => exact ⟨rfl, rfl⟩
  | listFrameworksR => exact ⟨rfl, rfl⟩
  | getFrameworkR fid => exact ⟨rfl, rfl⟩
  | healthR => exact ⟨rfl, rfl⟩
  | saveFrameworkR body =>
    have h := save_framework_preserves_tools now body ⟨fw, some a, some p⟩
    exact ⟨h.1, h.2⟩
  | analyzeSampleDataR => exact ⟨rfl, rfl⟩
  | preprocessDataR body =>
    have h := preprocess_data_pathStr_state env lib body fw a p s hps
    have hst : (handleRequest env lib now (.preprocessDataR body)
        ⟨fw, some a, some p⟩).2.1 =
        (preprocess_data env lib body ⟨fw, some a, some p⟩).2 := rfl
    rw [hst, h]
    exact ⟨rfl, rfl⟩

/-- Preprocessor as the server initializes it, for the C3 witness. -/
def pPathW : PreprocessorState :=
  dataPreprocessorInit (.pathStr sampleDataPath)

/-- Analyzer as the server initializes it, for the C3 witness. -/
def aW : AnalyzerState := thesisDataAnalyzerInit envW (some sampleDataPath)

/-- Fully initialized server state for the C3 witness. -/
def stInitW : ServerState := ⟨[], some aW, some pPathW⟩

theorem requests_preserve_initialized_tools_witness :
    (stInitW.data_analyzer = some aW
      ∧ stInitW.preprocessor = some pPathW
      ∧ pPathW.data = .pathStr sampleDataPath)
    ∧ (handleRequest envW lib0 tW
        (Request.preprocessDataR
          (.jobj [("config", .jobj [("handle_outliers", .jbool true)])]))
        stInitW).2.1.data_analyzer = some aW
    ∧ (handleRequest envW lib0 tW
        (Request.preprocessDataR
          (.jobj [("config", .jobj [("handle_outliers", .jbool true)])]))
        stInitW).2.1.preprocessor = some pPathW :=
  ⟨⟨rfl, rfl, rfl⟩,
   requests_preserve_initialized_tools envW lib0 tW
     (Request.preprocessDataR
       (.jobj [("config", .jobj [("handle_outliers", .jbool true)])]))
     stInitW aW pPathW sampleDataPath rfl rfl rfl⟩
